import Mathlib

/-!
Shallow embedding of the Twitch sitewide-ban-checker service
(`twitch-ban.js`): the result cache, the token cache with its refresh
routine, and the `GET /api/twitch/:username` request handler.

Times are JavaScript `Date.now()` values, modelled as `Int` milliseconds.
The script creates a single shared `Mutex` (`const mutex = new Mutex()`),
acquired both by the request handler around the whole lookup path and by
`getTwitchAccessToken` around the token refresh.  `async-mutex` is not
reentrant, so when the handler (already holding the mutex) calls
`getTwitchAccessToken` and the cached-token fast path fails, the inner
`mutex.acquire()` blocks forever.  The embedding makes this explicit: the
token routine takes a `heldByCaller` flag and returns `hang` when it would
block on the mutex its caller holds; the handler invokes it with
`heldByCaller := true`, mirroring the single shared mutex in the source.

Network effects are passed in as data: a `World` records the outcome the
upstream would give to the token exchange and to the user lookup, and the
result of a request carries the number of exchange calls and lookup calls
actually issued.
-/

set_option autoImplicit false

/-- `CACHE_TTL = 5 * 60 * 1000` (ms), the result-cache freshness window. -/
def CACHE_TTL : Int := 5 * 60 * 1000

/-- `TOKEN_TTL_BUFFER = 60 * 1000` (ms); the token code uses the literal
`(expires_in - 60) * 1000`, the same value in seconds. -/
def TOKEN_TTL_BUFFER : Int := 60 * 1000

/-- A response payload as built by the handler.  `cached` is `Option Bool`
because the invalid-format payloads carry no `cached` field at all. -/
structure Payload where
  username : String
  nickname : String
  avatar : String
  ban_status : String
  profile_link : String
  cached : Option Bool
deriving Repr, DecidableEq

/-- A result-cache entry: `userCache.set(username, { data, timestamp })`. -/
structure CacheEntry where
  data : Payload
  timestamp : Int
deriving Repr, DecidableEq

/-- The `userCache` JavaScript `Map`, as an association list with unique
keys (JS `Map` keys are unique; `set` updates in place or appends). -/
abbrev UserCache := List (String × CacheEntry)

/-- `tokenCache = { token: null, expiresAt: 0 }`. -/
structure TokenCache where
  token : Option String
  expiresAt : Int
deriving Repr, DecidableEq

/-- The process-wide mutable state: the result cache and the token cache. -/
structure ServerState where
  userCache : UserCache
  tokenCache : TokenCache
deriving Repr, DecidableEq

/-- State at process start. -/
def initialState : ServerState := ⟨[], ⟨none, 0⟩⟩

/-- `userCache.get(k)`. -/
def cacheGet : UserCache → String → Option CacheEntry
  | [], _ => none
  | p :: t, k => if p.1 = k then some p.2 else cacheGet t k

/-- `userCache.set(k, v)`: update the existing entry in place, else append
(JS `Map.set` semantics). -/
def cacheSet : UserCache → String → CacheEntry → UserCache
  | [], k, v => [(k, v)]
  | p :: t, k, v => if p.1 = k then (k, v) :: t else p :: cacheSet t k v

/-- The body parsed from a successful token exchange:
`{ access_token, expires_in }` (lifetime in seconds). -/
structure TokenResp where
  access_token : String
  expires_in : Int
deriving Repr, DecidableEq

/-- Outcome of `getTwitchAccessToken`: the cached-token fast path or a
completed refresh (`ok token newTokenCache exchangeCalls`), a thrown
`Error('Failed to authenticate with Twitch')` (`err`), or blocking forever
on `mutex.acquire()` because the caller already holds the shared mutex
(`hang`). -/
inductive TokenResult where
  | hang : TokenResult
  | ok : String → TokenCache → Nat → TokenResult
  | err : TokenCache → Nat → TokenResult
deriving Repr, DecidableEq

/-- `tokenCache.token && tokenCache.expiresAt > now`: the token value when
the fast-path check passes (`null` and the empty string are falsy). -/
def tokenFresh (tc : TokenCache) (now : Int) : Option String :=
  match tc.token with
  | some t => if t ≠ "" ∧ tc.expiresAt > now then some t else none
  | none => none

/-- `getTwitchAccessToken()`.  `heldByCaller` says whether the caller
already holds the single shared mutex (the request handler does); in that
case the inner `mutex.acquire()` never resolves.  `now1` is `Date.now()` at
entry, `now2` the re-check time after acquiring the mutex, `nowStore` the
`Date.now()` read when storing the refreshed token.  `resp` is the outcome
the identity endpoint would give. -/
def getTwitchAccessToken (heldByCaller : Bool) (tc : TokenCache)
    (now1 now2 nowStore : Int) (resp : Except Unit TokenResp) : TokenResult :=
  match tokenFresh tc now1 with
  | some t => .ok t tc 0
  | none =>
    if heldByCaller then .hang
    else
      match tokenFresh tc now2 with
      | some t => .ok t tc 0
      | none =>
        match resp with
        | .ok r =>
          .ok r.access_token ⟨some r.access_token, nowStore + (r.expires_in - 60) * 1000⟩ 1
        | .error _ => .err tc 1

/-- A Helix user record: `{ login, display_name, profile_image_url }`. -/
structure UserRec where
  login : String
  display_name : String
  profile_image_url : Option String
deriving Repr, DecidableEq

/-- Outcome the upstream would give to `GET /helix/users`: a 2xx body
(`response.data.data`), an HTTP error status (`error.response.status`),
or a transport failure with no response (timeout, network error). -/
inductive LookupOutcome where
  | ok : List UserRec → LookupOutcome
  | httpErr : Int → LookupOutcome
  | netErr : LookupOutcome
deriving Repr, DecidableEq

/-- The upstream behaviour a request would observe. -/
structure World where
  tokenResp : Except Unit TokenResp
  lookup : LookupOutcome
deriving Repr

/-- An HTTP response sent by the handler: `res.json(payload)` or
`res.status(s).json({ error: msg })`. -/
inductive Response where
  | json : Payload → Response
  | errJson : Int → String → Response
deriving Repr, DecidableEq

/-- Result of one request: a response together with the new server state
and the number of token-exchange and user-lookup calls issued, or `hang`
when the request blocks forever inside token acquisition. -/
inductive HandlerResult where
  | done : Response → ServerState → Nat → Nat → HandlerResult
  | hang : ServerState → Nat → Nat → HandlerResult
deriving Repr, DecidableEq

/-- The `Date.now()` values a single request reads, in program order. -/
structure ReqTimes where
  tCheck : Int
  tRecheck : Int
  tTokFast : Int
  tTokRecheck : Int
  tTokStore : Int
  tWrite : Int
deriving Repr, DecidableEq

/-- Drop whitespace from both ends of a character list (`trim()`). -/
def trimChars (l : List Char) : List Char :=
  ((l.dropWhile Char.isWhitespace).reverse.dropWhile Char.isWhitespace).reverse

/-- `username.trim().toLowerCase()`, written over the character list so
that it evaluates by kernel reduction. -/
def normalizeUsername (raw : String) : String :=
  ⟨(trimChars raw.data).map Char.toLower⟩

/-- `[a-zA-Z0-9_]`. -/
def isWordChar (c : Char) : Bool :=
  (decide ('a' ≤ c) && decide (c ≤ 'z')) ||
  (decide ('A' ≤ c) && decide (c ≤ 'Z')) ||
  (decide ('0' ≤ c) && decide (c ≤ '9')) || c == '_'

/-- The test of the regular expression matching one or more word chars
anchored at both ends. -/
def matchesWordRegex (s : String) : Bool :=
  (s != "") && s.data.all isWordChar

/-- The response body for a length violation (also covers the falsy empty
string, whose length is 0 < 3). -/
def invalidLengthPayload (u : String) : Payload :=
  ⟨u, "Invalid", "https://via.placeholder.com/50?text=Invalid",
   "Twitch usernames must be 3–25 characters long.", "#", none⟩

/-- The response body for a charset violation. -/
def invalidCharsPayload (u : String) : Payload :=
  ⟨u, "Invalid", "https://via.placeholder.com/50?text=Invalid",
   "Only letters, numbers, and underscores are allowed.", "#", none⟩

/-- JavaScript `a || b` on a possibly-absent string: the empty string is
falsy, so it also falls back to the default. -/
def jsOrElse (o : Option String) (d : String) : String :=
  match o with
  | some s => if s = "" then d else s
  | none => d

/-- Payload for a present user record (the Active classification). -/
def activePayload (rec : UserRec) : Payload :=
  ⟨rec.login, rec.display_name,
   jsOrElse rec.profile_image_url "https://via.placeholder.com/300",
   "Account is active and accessible. No sitewide ban detected.",
   "https://www.twitch.tv/" ++ rec.login, some false⟩

/-- Payload for an empty result set (banned or never existed). -/
def bannedEmptyPayload (u : String) : Payload :=
  ⟨u, "Not found / Banned", "https://via.placeholder.com/300?text=Banned",
   "User is sitewide banned or the account never existed.",
   "https://www.twitch.tv/" ++ u ++ " (inaccessible)", some false⟩

/-- Payload for an upstream 400/404 (banned or does not exist). -/
def bannedHttpPayload (u : String) : Payload :=
  ⟨u, "Not found / Banned", "https://via.placeholder.com/300?text=Banned",
   "User is sitewide banned or does not exist.",
   "https://www.twitch.tv/" ++ u ++ " (inaccessible)", some false⟩

/-- `{ ...entry.data, cached: true }`. -/
def serveCached (p : Payload) : Payload := { p with cached := some true }

/-- The generic 500 body sent for token failures and non-400/404 lookup
failures. -/
def serviceUnavailableMsg : String :=
  "Twitch service temporarily unavailable. Try again in a moment."

/-- The part of the handler after the in-mutex cache re-check has missed:
token acquisition (with the shared mutex already held by this very
request), then the Helix lookup and its classification, mirroring the
`try`/`catch` of the source. -/
def afterRecheck (username : String) (st : ServerState) (tm : ReqTimes)
    (w : World) : HandlerResult :=
  match getTwitchAccessToken true st.tokenCache tm.tTokFast tm.tTokRecheck
      tm.tTokStore w.tokenResp with
  | .hang => .hang st 0 0
  | .err tc' nEx =>
    .done (.errJson 500 serviceUnavailableMsg) { st with tokenCache := tc' } nEx 0
  | .ok _tok tc' nEx =>
    let stTok : ServerState := { st with tokenCache := tc' }
    match w.lookup with
    | .ok users =>
      match users.head? with
      | some rec =>
        let result := activePayload rec
        .done (.json result)
          { stTok with userCache := cacheSet stTok.userCache username ⟨result, tm.tWrite⟩ }
          nEx 1
      | none =>
        let result := bannedEmptyPayload username
        .done (.json result)
          { stTok with userCache := cacheSet stTok.userCache username ⟨result, tm.tWrite⟩ }
          nEx 1
    | .httpErr s =>
      if s = 400 ∨ s = 404 then
        let result := bannedHttpPayload username
        .done (.json result)
          { stTok with userCache := cacheSet stTok.userCache username ⟨result, tm.tWrite⟩ }
          nEx 1
      else
        .done (.errJson 500 serviceUnavailableMsg) stTok nEx 1
    | .netErr =>
      .done (.errJson 500 serviceUnavailableMsg) stTok nEx 1

/-- The handler body from `mutex.acquire()` on: the cache re-check inside
the mutex, then `afterRecheck`. -/
def handleLocked (username : String) (st : ServerState) (tm : ReqTimes)
    (w : World) : HandlerResult :=
  match cacheGet st.userCache username with
  | some a =>
    if a.timestamp > tm.tRecheck - CACHE_TTL then
      .done (.json (serveCached a.data)) st 0 0
    else afterRecheck username st tm w
  | none => afterRecheck username st tm w

/-- `app.get('/api/twitch/:username')`: normalization, the two format
checks, the unlocked cache check, then the locked path. -/
def handleUsernameRequest (raw : String) (st : ServerState) (tm : ReqTimes)
    (w : World) : HandlerResult :=
  let username := normalizeUsername raw
  if username.length < 3 ∨ username.length > 25 then
    .done (.json (invalidLengthPayload username)) st 0 0
  else if !matchesWordRegex username then
    .done (.json (invalidCharsPayload username)) st 0 0
  else
    match cacheGet st.userCache username with
    | some c =>
      if c.timestamp > tm.tCheck - CACHE_TTL then
        .done (.json (serveCached c.data)) st 0 0
      else handleLocked username st tm w
    | none => handleLocked username st tm w

/-- The state after a request, whatever its outcome. -/
def resultState : HandlerResult → ServerState
  | .done _ st _ _ => st
  | .hang st _ _ => st

/-- Lookup calls issued by a request. -/
def lookupCalls : HandlerResult → Nat
  | .done _ _ _ n => n
  | .hang _ _ n => n

/-- Token-exchange calls issued by a request. -/
def exchangeCalls : HandlerResult → Nat
  | .done _ _ n _ => n
  | .hang _ n _ => n

/-- One inbound request: the raw path parameter plus the times and the
upstream behaviour it would observe. -/
structure Request where
  raw : String
  tm : ReqTimes
  w : World

/-- Run a sequence of requests, threading the server state. -/
def runRequests (st : ServerState) : List Request → ServerState
  | [] => st
  | r :: rs => runRequests (resultState (handleUsernameRequest r.raw st r.tm r.w)) rs

/-- The body of `GET /health` (timestamp and uptime omitted):
`cache_entries` is `userCache.size`. -/
structure HealthBody where
  status : String
  cache_entries : Nat
deriving Repr, DecidableEq

/-- `app.get('/health')`. -/
def healthHandler (st : ServerState) : HealthBody :=
  ⟨"healthy", st.userCache.length⟩

/-- Format predicate as the spec states it: length in `[3,25]` and charset
`[A-Za-z0-9_]` only. -/
def specValidFormat (s : String) : Prop :=
  3 ≤ s.length ∧ s.length ≤ 25 ∧ s.data.all isWordChar = true

instance (s : String) : Decidable (specValidFormat s) := by
  unfold specValidFormat; infer_instance

/-- The BannedOrMissing classification shape from the spec: the
not-found/banned nickname and avatar, the inaccessible-annotated profile
link, and one of the two banned-or-nonexistent status messages. -/
def IsBannedOrMissing (u : String) (p : Payload) : Prop :=
  p.username = u ∧ p.nickname = "Not found / Banned" ∧
  p.avatar = "https://via.placeholder.com/300?text=Banned" ∧
  p.profile_link = "https://www.twitch.tv/" ++ u ++ " (inaccessible)" ∧
  (p.ban_status = "User is sitewide banned or the account never existed." ∨
   p.ban_status = "User is sitewide banned or does not exist.")

/-! ### Helper lemmas -/

lemma valid_format_checks (s : String) (h : specValidFormat s) :
    ¬(s.length < 3 ∨ s.length > 25) ∧ matchesWordRegex s = true := by
  obtain ⟨h3, h25, hall⟩ := h
  refine ⟨by omega, ?_⟩
  have hne : s ≠ "" := by
    intro he
    subst he
    exact absurd h3 (by decide)
  simp [matchesWordRegex, hall, hne]

lemma handle_of_valid (raw : String) (st : ServerState) (tm : ReqTimes) (w : World)
    (hfmt : specValidFormat (normalizeUsername raw)) :
    handleUsernameRequest raw st tm w =
      match cacheGet st.userCache (normalizeUsername raw) with
      | some c =>
        if c.timestamp > tm.tCheck - CACHE_TTL then
          .done (.json (serveCached c.data)) st 0 0
        else handleLocked (normalizeUsername raw) st tm w
      | none => handleLocked (normalizeUsername raw) st tm w := by
  obtain ⟨hlen, hreg⟩ := valid_format_checks _ hfmt
  simp [handleUsernameRequest, hlen, hreg]

lemma handle_miss (raw : String) (st : ServerState) (tm : ReqTimes) (w : World)
    (hfmt : specValidFormat (normalizeUsername raw))
    (hget : cacheGet st.userCache (normalizeUsername raw) = none) :
    handleUsernameRequest raw st tm w = afterRecheck (normalizeUsername raw) st tm w := by
  rw [handle_of_valid raw st tm w hfmt, hget]
  simp [handleLocked, hget]

lemma handle_stale (raw : String) (st : ServerState) (tm : ReqTimes) (w : World)
    (e : CacheEntry) (hfmt : specValidFormat (normalizeUsername raw))
    (hget : cacheGet st.userCache (normalizeUsername raw) = some e)
    (h1 : e.timestamp + CACHE_TTL ≤ tm.tCheck)
    (h2 : e.timestamp + CACHE_TTL ≤ tm.tRecheck) :
    handleUsernameRequest raw st tm w = afterRecheck (normalizeUsername raw) st tm w := by
  rw [handle_of_valid raw st tm w hfmt, hget]
  simp only
  rw [if_neg (by omega)]
  simp only [handleLocked, hget]
  rw [if_neg (by omega)]

lemma afterRecheck_no_token (u : String) (st : ServerState) (tm : ReqTimes) (w : World)
    (htok : tokenFresh st.tokenCache tm.tTokFast = none) :
    afterRecheck u st tm w = .hang st 0 0 := by
  simp [afterRecheck, getTwitchAccessToken, htok]

lemma afterRecheck_lookupCalls (u : String) (st : ServerState) (tm : ReqTimes) (w : World)
    (t : String) (htok : tokenFresh st.tokenCache tm.tTokFast = some t) :
    lookupCalls (afterRecheck u st tm w) = 1 := by
  simp only [afterRecheck, getTwitchAccessToken, htok]
  cases hw : w.lookup with
  | ok users => cases users <;> simp [lookupCalls]
  | httpErr s =>
    by_cases hs : s = 400 ∨ s = 404 <;> simp [lookupCalls, hs]
  | netErr => simp [lookupCalls]

lemma cacheGet_cacheSet_self (m : UserCache) (k : String) (v : CacheEntry) :
    cacheGet (cacheSet m k v) k = some v := by
  induction m with
  | nil => simp [cacheSet, cacheGet]
  | cons p t ih =>
    by_cases hp : p.1 = k
    · simp [cacheSet, hp, cacheGet]
    · simp [cacheSet, hp, cacheGet, ih]

lemma cacheGet_cacheSet_other (m : UserCache) (k k2 : String) (v : CacheEntry)
    (h : k2 ≠ k) : cacheGet (cacheSet m k v) k2 = cacheGet m k2 := by
  have h2 : ¬(k = k2) := fun he => h he.symm
  induction m with
  | nil => simp [cacheSet, cacheGet, h2]
  | cons p t ih =>
    by_cases hp : p.1 = k
    · simp [cacheSet, hp, cacheGet, h2]
    · simp [cacheSet, hp, cacheGet, ih]

lemma length_le_cacheSet (m : UserCache) (k : String) (v : CacheEntry) :
    m.length ≤ (cacheSet m k v).length := by
  induction m with
  | nil => simp [cacheSet]
  | cons p t ih =>
    by_cases hp : p.1 = k
    · simp [cacheSet, hp]
    · simpa [cacheSet, hp] using ih

lemma isSome_cacheGet_cacheSet (m : UserCache) (k k2 : String) (v : CacheEntry)
    (h : (cacheGet m k2).isSome) : (cacheGet (cacheSet m k v) k2).isSome := by
  by_cases hk : k2 = k
  · subst hk
    rw [cacheGet_cacheSet_self]
    rfl
  · rw [cacheGet_cacheSet_other _ _ _ _ hk]
    exact h

lemma mem_keys_cacheSet (m : UserCache) (k : String) (v : CacheEntry) (a : String)
    (ha : a ∈ (cacheSet m k v).map Prod.fst) : a = k ∨ a ∈ m.map Prod.fst := by
  induction m with
  | nil =>
    simp only [cacheSet, List.map_cons, List.map_nil, List.mem_singleton] at ha
    exact .inl ha
  | cons p t ih =>
    by_cases hp : p.1 = k
    · simp only [cacheSet, if_pos hp, List.map_cons, List.mem_cons] at ha
      rcases ha with h | h
      · exact .inl h
      · exact .inr (List.mem_cons.mpr (.inr h))
    · simp only [cacheSet, if_neg hp, List.map_cons, List.mem_cons] at ha
      rcases ha with h | h
      · exact .inr (List.mem_cons.mpr (.inl h))
      · rcases ih h with h2 | h2
        · exact .inl h2
        · exact .inr (List.mem_cons.mpr (.inr h2))

lemma nodup_keys_cacheSet (m : UserCache) (k : String) (v : CacheEntry)
    (h : (m.map Prod.fst).Nodup) : ((cacheSet m k v).map Prod.fst).Nodup := by
  induction m with
  | nil => simp [cacheSet]
  | cons p t ih =>
    simp only [List.map_cons, List.nodup_cons] at h
    by_cases hp : p.1 = k
    · simp only [cacheSet, if_pos hp, List.map_cons, List.nodup_cons]
      exact ⟨hp ▸ h.1, h.2⟩
    · simp only [cacheSet, if_neg hp, List.map_cons, List.nodup_cons]
      refine ⟨?_, ih h.2⟩
      intro hmem
      rcases mem_keys_cacheSet t k v p.1 hmem with h1 | h1
      · exact hp h1
      · exact h.1 h1

lemma userCache_after (raw : String) (st : ServerState) (tm : ReqTimes) (w : World) :
    (resultState (handleUsernameRequest raw st tm w)).userCache = st.userCache ∨
    ∃ e, (resultState (handleUsernameRequest raw st tm w)).userCache =
      cacheSet st.userCache (normalizeUsername raw) e := by
  by_cases h1 : (normalizeUsername raw).length < 3 ∨ (normalizeUsername raw).length > 25
  · left
    simp [handleUsernameRequest, h1, resultState]
  by_cases h2 : matchesWordRegex (normalizeUsername raw)
  case neg =>
    left
    simp [handleUsernameRequest, h1, h2, resultState]
  have hall : handleUsernameRequest raw st tm w =
      match cacheGet st.userCache (normalizeUsername raw) with
      | some c =>
        if c.timestamp > tm.tCheck - CACHE_TTL then
          .done (.json (serveCached c.data)) st 0 0
        else handleLocked (normalizeUsername raw) st tm w
      | none => handleLocked (normalizeUsername raw) st tm w := by
    simp [handleUsernameRequest, h1, h2]
  have hlocked : ∀ u : String,
      (resultState (afterRecheck u st tm w)).userCache = st.userCache ∨
      ∃ e, (resultState (afterRecheck u st tm w)).userCache = cacheSet st.userCache u e := by
    intro u
    cases ht : getTwitchAccessToken true st.tokenCache tm.tTokFast tm.tTokRecheck
        tm.tTokStore w.tokenResp with
    | hang => left; simp [afterRecheck, ht, resultState]
    | err tc' n => left; simp [afterRecheck, ht, resultState]
    | ok tok tc' n =>
      cases hw : w.lookup with
      | ok users =>
        cases users with
        | nil =>
          right
          exact ⟨⟨bannedEmptyPayload u, tm.tWrite⟩, by simp [afterRecheck, ht, hw, resultState]⟩
        | cons a l =>
          right
          exact ⟨⟨activePayload a, tm.tWrite⟩, by simp [afterRecheck, ht, hw, resultState]⟩
      | httpErr s =>
        by_cases hs : s = 400 ∨ s = 404
        · right
          exact ⟨⟨bannedHttpPayload u, tm.tWrite⟩, by simp [afterRecheck, ht, hw, hs, resultState]⟩
        · left; simp [afterRecheck, ht, hw, hs, resultState]
      | netErr => left; simp [afterRecheck, ht, hw, resultState]
  rw [hall]
  cases hc : cacheGet st.userCache (normalizeUsername raw) with
  | some c =>
    by_cases hfresh : c.timestamp > tm.tCheck - CACHE_TTL
    · left
      simp [hfresh, resultState]
    · simp only [hfresh, if_false, handleLocked, hc]
      by_cases hfresh2 : c.timestamp > tm.tRecheck - CACHE_TTL
      · left
        simp [hfresh2, resultState]
      · simp only [hfresh2, if_false]
        exact hlocked _
  | none =>
    simp only [handleLocked, hc]
    exact hlocked _

/-! ### Claim theorems -/

/-- C1: the single-flight property fails outright.  A first-time lookup
for a valid username with an empty result cache and no valid token never
completes: the handler acquires the single shared mutex and then
`getTwitchAccessToken` blocks forever acquiring that same (non-reentrant)
mutex.  Even with an upstream that would answer both calls successfully,
the request makes zero exchange calls and zero lookup calls and sends no
response, so concurrent first-time callers do not "receive
classification-consistent responses" — they receive nothing. -/
theorem c1_singleflight_deadlock :
    handleUsernameRequest "streamer42" initialState
      ⟨1000, 1000, 1000, 1000, 1000, 1000⟩
      ⟨.ok ⟨"tok", 14400⟩, .ok [⟨"streamer42", "Streamer42", some "url"⟩]⟩ =
      .hang initialState 0 0 := by decide

/-- C2: the critical section is not "scoped to token refresh only": the
source guards the whole request path and the token refresh with the one
shared `mutex`.  A request that misses the result cache while the cached
token is expired blocks forever inside the token-acquisition step (shown
here with an expired token present), so token acquisition does not
terminate. -/
theorem c2_token_section_deadlock :
    handleUsernameRequest "coolstreamer"
      ⟨[], ⟨some "oldtok", 500⟩⟩ ⟨2000, 2000, 2000, 2000, 2000, 2000⟩
      ⟨.ok ⟨"newtok", 3600⟩, .ok []⟩ =
      .hang ⟨[], ⟨some "oldtok", 500⟩⟩ 0 0 := by decide

/-- C3 counterexample: an entry written at T = 0 and a request arriving
exactly at T + TTL (300000 ms) with no valid token cached.  The entry is
correctly treated as absent, but no fresh upstream lookup is performed:
the request hangs in token acquisition with zero lookup calls, refuting
"a fresh upstream lookup is performed instead" for every such request. -/
theorem c3_stale_no_lookup_cex :
    handleUsernameRequest "staleuser"
      ⟨[("staleuser", ⟨bannedEmptyPayload "staleuser", 0⟩)], ⟨none, 0⟩⟩
      ⟨300000, 300000, 300000, 300000, 300000, 300000⟩
      ⟨.ok ⟨"tok", 14400⟩, .ok []⟩ =
      .hang ⟨[("staleuser", ⟨bannedEmptyPayload "staleuser", 0⟩)], ⟨none, 0⟩⟩ 0 0 := by
  decide

/-- C3 (amended): an entry written at time T is served verbatim with
`cached: true` for every request arriving strictly before T + TTL; a
request arriving at or after T + TTL (at both cache checks) never serves
it and proceeds past both cache checks; it performs exactly one upstream
lookup when a valid token is cached, and with no valid token it blocks in
token acquisition, performing no lookup. -/
theorem c3_result_cache_ttl (raw : String) (st : ServerState) (tm : ReqTimes)
    (w : World) (e : CacheEntry)
    (hfmt : specValidFormat (normalizeUsername raw))
    (hget : cacheGet st.userCache (normalizeUsername raw) = some e) :
    (tm.tCheck < e.timestamp + CACHE_TTL →
      handleUsernameRequest raw st tm w = .done (.json (serveCached e.data)) st 0 0) ∧
    (e.timestamp + CACHE_TTL ≤ tm.tCheck → e.timestamp + CACHE_TTL ≤ tm.tRecheck →
      handleUsernameRequest raw st tm w = afterRecheck (normalizeUsername raw) st tm w ∧
      (∀ t, tokenFresh st.tokenCache tm.tTokFast = some t →
        lookupCalls (handleUsernameRequest raw st tm w) = 1) ∧
      (tokenFresh st.tokenCache tm.tTokFast = none →
        handleUsernameRequest raw st tm w = .hang st 0 0)) := by
  constructor
  · intro hf
    rw [handle_of_valid raw st tm w hfmt, hget]
    simp only
    rw [if_pos (by omega)]
  · intro hs1 hs2
    have heq := handle_stale raw st tm w e hfmt hget hs1 hs2
    refine ⟨heq, ?_, ?_⟩
    · intro t ht
      rw [heq]
      exact afterRecheck_lookupCalls _ st tm w t ht
    · intro ht
      rw [heq]
      exact afterRecheck_no_token _ st tm w ht

/-- C3 witness: a fresh entry (written at 0, request at 1000) is served
verbatim with `cached: true`, the state unchanged and no upstream call. -/
theorem c3_result_cache_ttl_witness :
    specValidFormat (normalizeUsername "cacheduser") ∧
    (1000 : Int) < 0 + CACHE_TTL ∧
    handleUsernameRequest "cacheduser"
      ⟨[("cacheduser", ⟨bannedEmptyPayload "cacheduser", 0⟩)], ⟨none, 0⟩⟩
      ⟨1000, 1000, 1000, 1000, 1000, 1000⟩ ⟨.error (), .ok []⟩ =
      .done (.json (serveCached (bannedEmptyPayload "cacheduser")))
        ⟨[("cacheduser", ⟨bannedEmptyPayload "cacheduser", 0⟩)], ⟨none, 0⟩⟩ 0 0 :=
  ⟨by decide, by decide,
   (c3_result_cache_ttl "cacheduser"
      ⟨[("cacheduser", ⟨bannedEmptyPayload "cacheduser", 0⟩)], ⟨none, 0⟩⟩
      ⟨1000, 1000, 1000, 1000, 1000, 1000⟩ ⟨.error (), .ok []⟩
      ⟨bannedEmptyPayload "cacheduser", 0⟩ (by decide) (by decide)).1 (by decide)⟩

/-- C4 counterexample: the token cache holds a token with stored expiry
1000; a request arrives exactly at that instant.  The claim requires
exactly one refresh; the code makes zero token-exchange calls and hangs,
because the handler already holds the mutex the refresh path needs. -/
theorem c4_expired_token_no_refresh_cex :
    handleUsernameRequest "expireduser" ⟨[], ⟨some "tok", 1000⟩⟩
      ⟨1000, 1000, 1000, 1000, 1000, 1000⟩ ⟨.ok ⟨"fresh", 14400⟩, .ok []⟩ =
      .hang ⟨[], ⟨some "tok", 1000⟩⟩ 0 0 := by decide

/-- C4 (amended): (1) a successful exchange returning lifetime L seconds,
stored at time T, sets the stored expiry to T + (L − 60)·1000 ms with
exactly one exchange call — for the token routine entered without the
shared mutex held; (2) the cached token is returned by the fast path iff
the current time is strictly before the stored expiry; (3) but a request
reaching token acquisition at or after the stored expiry triggers no
refresh at all: it hangs on the shared mutex the handler already holds. -/
theorem c4_token_expiry :
    (∀ (tc : TokenCache) (n1 n2 ns : Int) (r : TokenResp),
      tokenFresh tc n1 = none → tokenFresh tc n2 = none →
      getTwitchAccessToken false tc n1 n2 ns (.ok r) =
        .ok r.access_token ⟨some r.access_token, ns + (r.expires_in - 60) * 1000⟩ 1) ∧
    (∀ (tc : TokenCache) (t : String) (now : Int), tc.token = some t → t ≠ "" →
      (tokenFresh tc now = some t ↔ now < tc.expiresAt)) ∧
    (∀ (raw : String) (st : ServerState) (tm : ReqTimes) (w : World),
      specValidFormat (normalizeUsername raw) →
      cacheGet st.userCache (normalizeUsername raw) = none →
      tokenFresh st.tokenCache tm.tTokFast = none →
      handleUsernameRequest raw st tm w = .hang st 0 0) := by
  refine ⟨?_, ?_, ?_⟩
  · intro tc n1 n2 ns r h1 h2
    simp [getTwitchAccessToken, h1, h2]
  · intro tc t now htok htne
    obtain ⟨token, exp⟩ := tc
    simp only at htok
    subst htok
    simp only [tokenFresh]
    by_cases h : exp > now
    · simp [htne, h]
    · simp [htne, h]
  · intro raw st tm w hfmt hget htok
    rw [handle_miss raw st tm w hfmt hget]
    exact afterRecheck_no_token _ st tm w htok

/-- C4 witness: a concrete refresh stores expiry 150 + (14400 − 60)·1000;
the fast path serves a token at 999 against expiry 1000; and a request at
the expiry instant hangs with zero exchanges. -/
theorem c4_token_expiry_witness :
    getTwitchAccessToken false ⟨none, 0⟩ 100 100 150 (.ok ⟨"newtok", 14400⟩) =
      .ok "newtok" ⟨some "newtok", 150 + (14400 - 60) * 1000⟩ 1 ∧
    (tokenFresh ⟨some "tok", 1000⟩ 999 = some "tok" ↔ (999 : Int) < 1000) ∧
    handleUsernameRequest "expiredagain" ⟨[], ⟨some "tok", 1000⟩⟩
      ⟨1000, 1000, 1000, 1000, 1000, 1000⟩ ⟨.error (), .ok []⟩ =
      .hang ⟨[], ⟨some "tok", 1000⟩⟩ 0 0 :=
  ⟨c4_token_expiry.1 ⟨none, 0⟩ 100 100 150 ⟨"newtok", 14400⟩ (by decide) (by decide),
   c4_token_expiry.2.1 ⟨some "tok", 1000⟩ "tok" 999 rfl (by decide),
   c4_token_expiry.2.2 "expiredagain" ⟨[], ⟨some "tok", 1000⟩⟩
     ⟨1000, 1000, 1000, 1000, 1000, 1000⟩ ⟨.error (), .ok []⟩
     (by decide) (by decide) (by decide)⟩

/-- C6 counterexample: a lookup that times out is answered 500 with both
caches untouched (first conjunct) — but the claim's consequence "a
subsequent identical request ... retries upstream" fails: a later
identical request, arriving after the cached token's expiry, blocks in
token acquisition and issues zero upstream calls (second conjunct),
instead of retrying the lookup. -/
theorem c6_no_retry_after_timeout_cex :
    handleUsernameRequest "timeoutuser" ⟨[], ⟨some "tok", 1000000⟩⟩
      ⟨0, 0, 0, 0, 0, 0⟩ ⟨.ok ⟨"tok", 14400⟩, .netErr⟩ =
      .done (.errJson 500 serviceUnavailableMsg) ⟨[], ⟨some "tok", 1000000⟩⟩ 0 1 ∧
    handleUsernameRequest "timeoutuser" ⟨[], ⟨some "tok", 1000000⟩⟩
      ⟨2000000, 2000000, 2000000, 2000000, 2000000, 2000000⟩
      ⟨.ok ⟨"fresh", 14400⟩, .ok [⟨"timeoutuser", "T", none⟩]⟩ =
      .hang ⟨[], ⟨some "tok", 1000000⟩⟩ 0 0 := by
  constructor <;> decide

/-- C6 (amended): (1) a user-lookup failure other than HTTP 400/404
(timeout, network error, or any other status) yields a 500 response and
returns the state unchanged: nothing is written to the result cache or
the token cache; (2) a failed token exchange (in the token routine
entered without the shared mutex held) stores nothing in the token cache;
(3) hence a subsequent identical request is not served from cache, and it
retries the upstream lookup provided a valid token is cached at that
time (with no valid token it blocks in token acquisition instead). -/
theorem c6_transient_failure_not_cached :
    (∀ (raw : String) (st : ServerState) (tm : ReqTimes) (w : World) (t : String),
      specValidFormat (normalizeUsername raw) →
      cacheGet st.userCache (normalizeUsername raw) = none →
      tokenFresh st.tokenCache tm.tTokFast = some t →
      (w.lookup = .netErr ∨ ∃ s, w.lookup = .httpErr s ∧ s ≠ 400 ∧ s ≠ 404) →
      handleUsernameRequest raw st tm w =
        .done (.errJson 500 serviceUnavailableMsg) st 0 1) ∧
    (∀ (tc : TokenCache) (n1 n2 ns : Int),
      tokenFresh tc n1 = none → tokenFresh tc n2 = none →
      getTwitchAccessToken false tc n1 n2 ns (.error ()) = .err tc 1) ∧
    (∀ (raw : String) (st : ServerState) (tm tm2 : ReqTimes) (w w2 : World) (t t2 : String),
      specValidFormat (normalizeUsername raw) →
      cacheGet st.userCache (normalizeUsername raw) = none →
      tokenFresh st.tokenCache tm.tTokFast = some t →
      (w.lookup = .netErr ∨ ∃ s, w.lookup = .httpErr s ∧ s ≠ 400 ∧ s ≠ 404) →
      tokenFresh st.tokenCache tm2.tTokFast = some t2 →
      lookupCalls (handleUsernameRequest raw
        (resultState (handleUsernameRequest raw st tm w)) tm2 w2) = 1) := by
  have part1 : ∀ (raw : String) (st : ServerState) (tm : ReqTimes) (w : World) (t : String),
      specValidFormat (normalizeUsername raw) →
      cacheGet st.userCache (normalizeUsername raw) = none →
      tokenFresh st.tokenCache tm.tTokFast = some t →
      (w.lookup = .netErr ∨ ∃ s, w.lookup = .httpErr s ∧ s ≠ 400 ∧ s ≠ 404) →
      handleUsernameRequest raw st tm w =
        .done (.errJson 500 serviceUnavailableMsg) st 0 1 := by
    intro raw st tm w t hfmt hget htok herr
    rw [handle_miss raw st tm w hfmt hget]
    rcases herr with hnet | ⟨s, hs, h400, h404⟩
    · simp [afterRecheck, getTwitchAccessToken, htok, hnet]
    · simp [afterRecheck, getTwitchAccessToken, htok, hs, h400, h404]
  refine ⟨part1, ?_, ?_⟩
  · intro tc n1 n2 ns h1 h2
    simp [getTwitchAccessToken, h1, h2]
  · intro raw st tm tm2 w w2 t t2 hfmt hget htok herr htok2
    rw [part1 raw st tm w t hfmt hget htok herr]
    simp only [resultState]
    rw [handle_miss raw st tm2 w2 hfmt hget]
    exact afterRecheck_lookupCalls _ st tm2 w2 t2 htok2

/-- C6 witness: with a valid token, a timed-out lookup for "flakyuser"
gets a 500 and leaves the state unchanged; a failed exchange leaves the
token cache unchanged; and an immediate identical retry issues exactly
one lookup. -/
theorem c6_transient_failure_not_cached_witness :
    handleUsernameRequest "flakyuser" ⟨[], ⟨some "tok", 900000⟩⟩
      ⟨10, 10, 10, 10, 10, 10⟩ ⟨.error (), .netErr⟩ =
      .done (.errJson 500 serviceUnavailableMsg) ⟨[], ⟨some "tok", 900000⟩⟩ 0 1 ∧
    getTwitchAccessToken false ⟨none, 0⟩ 10 10 10 (.error ()) = .err ⟨none, 0⟩ 1 ∧
    lookupCalls (handleUsernameRequest "flakyuser"
      (resultState (handleUsernameRequest "flakyuser" ⟨[], ⟨some "tok", 900000⟩⟩
        ⟨10, 10, 10, 10, 10, 10⟩ ⟨.error (), .netErr⟩))
      ⟨20, 20, 20, 20, 20, 20⟩ ⟨.error (), .ok []⟩) = 1 :=
  ⟨c6_transient_failure_not_cached.1 "flakyuser" ⟨[], ⟨some "tok", 900000⟩⟩
      ⟨10, 10, 10, 10, 10, 10⟩ ⟨.error (), .netErr⟩ "tok"
      (by decide) (by decide) (by decide) (.inl rfl),
   c6_transient_failure_not_cached.2.1 ⟨none, 0⟩ 10 10 10 (by decide) (by decide),
   c6_transient_failure_not_cached.2.2 "flakyuser" ⟨[], ⟨some "tok", 900000⟩⟩
      ⟨10, 10, 10, 10, 10, 10⟩ ⟨20, 20, 20, 20, 20, 20⟩ ⟨.error (), .netErr⟩
      ⟨.error (), .ok []⟩ "tok" "tok"
      (by decide) (by decide) (by decide) (.inl rfl) (by decide)⟩

/-- C7: with a valid token, an empty result set and an HTTP 400 or 404
both yield a BannedOrMissing payload (not-found/banned nickname, banned
avatar, inaccessible-annotated profile link, a banned-or-nonexistent
status message) that is written to the result cache in the response
state; the two payloads satisfy the same classification shape, differing
only in status-message wording. -/
theorem c7_banned_or_missing_classification (raw : String) (st : ServerState)
    (tm : ReqTimes) (w : World) (t : String)
    (hfmt : specValidFormat (normalizeUsername raw))
    (hget : cacheGet st.userCache (normalizeUsername raw) = none)
    (htok : tokenFresh st.tokenCache tm.tTokFast = some t) :
    (w.lookup = .ok [] →
      handleUsernameRequest raw st tm w =
        .done (.json (bannedEmptyPayload (normalizeUsername raw)))
          ⟨cacheSet st.userCache (normalizeUsername raw)
            ⟨bannedEmptyPayload (normalizeUsername raw), tm.tWrite⟩, st.tokenCache⟩ 0 1 ∧
      cacheGet (cacheSet st.userCache (normalizeUsername raw)
          ⟨bannedEmptyPayload (normalizeUsername raw), tm.tWrite⟩) (normalizeUsername raw) =
        some ⟨bannedEmptyPayload (normalizeUsername raw), tm.tWrite⟩) ∧
    (∀ s : Int, s = 400 ∨ s = 404 → w.lookup = .httpErr s →
      handleUsernameRequest raw st tm w =
        .done (.json (bannedHttpPayload (normalizeUsername raw)))
          ⟨cacheSet st.userCache (normalizeUsername raw)
            ⟨bannedHttpPayload (normalizeUsername raw), tm.tWrite⟩, st.tokenCache⟩ 0 1 ∧
      cacheGet (cacheSet st.userCache (normalizeUsername raw)
          ⟨bannedHttpPayload (normalizeUsername raw), tm.tWrite⟩) (normalizeUsername raw) =
        some ⟨bannedHttpPayload (normalizeUsername raw), tm.tWrite⟩) ∧
    IsBannedOrMissing (normalizeUsername raw) (bannedEmptyPayload (normalizeUsername raw)) ∧
    IsBannedOrMissing (normalizeUsername raw) (bannedHttpPayload (normalizeUsername raw)) := by
  refine ⟨?_, ?_, ?_, ?_⟩
  · intro hw
    refine ⟨?_, cacheGet_cacheSet_self _ _ _⟩
    rw [handle_miss raw st tm w hfmt hget]
    simp [afterRecheck, getTwitchAccessToken, htok, hw]
  · intro s hs hw
    refine ⟨?_, cacheGet_cacheSet_self _ _ _⟩
    rw [handle_miss raw st tm w hfmt hget]
    simp [afterRecheck, getTwitchAccessToken, htok, hw, hs]
  · simp [IsBannedOrMissing, bannedEmptyPayload]
  · simp [IsBannedOrMissing, bannedHttpPayload]

/-- C7 witness: with a valid token, the empty result set for "goneuser"
produces the banned-or-missing payload and caches it. -/
theorem c7_banned_or_missing_classification_witness :
    handleUsernameRequest "goneuser" ⟨[], ⟨some "tok", 1000000⟩⟩ ⟨5, 5, 5, 5, 5, 7⟩
      ⟨.error (), .ok []⟩ =
      .done (.json (bannedEmptyPayload (normalizeUsername "goneuser")))
        ⟨cacheSet [] (normalizeUsername "goneuser")
          ⟨bannedEmptyPayload (normalizeUsername "goneuser"), 7⟩,
         ⟨some "tok", 1000000⟩⟩ 0 1 ∧
    cacheGet (cacheSet [] (normalizeUsername "goneuser")
        ⟨bannedEmptyPayload (normalizeUsername "goneuser"), 7⟩) (normalizeUsername "goneuser") =
      some ⟨bannedEmptyPayload (normalizeUsername "goneuser"), 7⟩ :=
  (c7_banned_or_missing_classification "goneuser" ⟨[], ⟨some "tok", 1000000⟩⟩
    ⟨5, 5, 5, 5, 5, 7⟩ ⟨.error (), .ok []⟩ "tok"
    (by decide) (by decide) (by decide)).1 rfl

/-- C8: with a valid token, a present user record is classified Active:
the payload uses the record's login (Twitch logins are lowercase) as
username and in the canonical profile link, the display name as nickname,
the profile image with the placeholder fallback when absent or empty, and
the no-ban-detected status message; it is written to the result cache in
the response state. -/
theorem c8_active_classification (raw : String) (st : ServerState)
    (tm : ReqTimes) (w : World) (t : String) (rec : UserRec) (rest : List UserRec)
    (hfmt : specValidFormat (normalizeUsername raw))
    (hget : cacheGet st.userCache (normalizeUsername raw) = none)
    (htok : tokenFresh st.tokenCache tm.tTokFast = some t)
    (hw : w.lookup = .ok (rec :: rest)) :
    handleUsernameRequest raw st tm w =
      .done (.json (activePayload rec))
        ⟨cacheSet st.userCache (normalizeUsername raw) ⟨activePayload rec, tm.tWrite⟩,
         st.tokenCache⟩ 0 1 ∧
    (activePayload rec).username = rec.login ∧
    (activePayload rec).nickname = rec.display_name ∧
    (activePayload rec).ban_status =
      "Account is active and accessible. No sitewide ban detected." ∧
    (activePayload rec).profile_link = "https://www.twitch.tv/" ++ rec.login ∧
    (rec.profile_image_url = none →
      (activePayload rec).avatar = "https://via.placeholder.com/300") ∧
    (∀ a, rec.profile_image_url = some a → a ≠ "" → (activePayload rec).avatar = a) ∧
    cacheGet (cacheSet st.userCache (normalizeUsername raw) ⟨activePayload rec, tm.tWrite⟩)
      (normalizeUsername raw) = some ⟨activePayload rec, tm.tWrite⟩ := by
  refine ⟨?_, rfl, rfl, rfl, rfl, ?_, ?_, cacheGet_cacheSet_self _ _ _⟩
  · rw [handle_miss raw st tm w hfmt hget]
    simp [afterRecheck, getTwitchAccessToken, htok, hw]
  · intro h
    simp [activePayload, jsOrElse, h]
  · intro a h hne
    simp [activePayload, jsOrElse, h, hne]

/-- C8 witness: the record for "activeuser" (no profile image) yields the
Active payload with the placeholder avatar, cached in the final state. -/
theorem c8_active_classification_witness :
    handleUsernameRequest "activeuser" ⟨[], ⟨some "tok", 1000000⟩⟩ ⟨5, 5, 5, 5, 5, 9⟩
      ⟨.error (), .ok [⟨"activeuser", "ActiveUser", none⟩]⟩ =
      .done (.json (activePayload ⟨"activeuser", "ActiveUser", none⟩))
        ⟨cacheSet [] (normalizeUsername "activeuser")
          ⟨activePayload ⟨"activeuser", "ActiveUser", none⟩, 9⟩,
         ⟨some "tok", 1000000⟩⟩ 0 1 ∧
    (activePayload (⟨"activeuser", "ActiveUser", none⟩ : UserRec)).avatar =
      "https://via.placeholder.com/300" :=
  ⟨(c8_active_classification "activeuser" ⟨[], ⟨some "tok", 1000000⟩⟩ ⟨5, 5, 5, 5, 5, 9⟩
      ⟨.error (), .ok [⟨"activeuser", "ActiveUser", none⟩]⟩ "tok"
      ⟨"activeuser", "ActiveUser", none⟩ []
      (by decide) (by decide) (by decide) rfl).1,
   (c8_active_classification "activeuser" ⟨[], ⟨some "tok", 1000000⟩⟩ ⟨5, 5, 5, 5, 5, 9⟩
      ⟨.error (), .ok [⟨"activeuser", "ActiveUser", none⟩]⟩ "tok"
      ⟨"activeuser", "ActiveUser", none⟩ []
      (by decide) (by decide) (by decide) rfl).2.2.2.2.2.1 rfl⟩

/-- C5: any username whose normalization fails the spec's format
predicate is answered with one of the two structured invalid-format
payloads; the server state (both caches) is returned unchanged and no
exchange or lookup call is issued. -/
theorem c5_invalid_format_rejected (raw : String) (st : ServerState)
    (tm : ReqTimes) (w : World)
    (h : ¬ specValidFormat (normalizeUsername raw)) :
    handleUsernameRequest raw st tm w =
      .done (.json (invalidLengthPayload (normalizeUsername raw))) st 0 0 ∨
    handleUsernameRequest raw st tm w =
      .done (.json (invalidCharsPayload (normalizeUsername raw))) st 0 0 := by
  by_cases hl : (normalizeUsername raw).length < 3 ∨ (normalizeUsername raw).length > 25
  · left
    simp [handleUsernameRequest, hl]
  · right
    have h3 : 3 ≤ (normalizeUsername raw).length := by omega
    have h25 : (normalizeUsername raw).length ≤ 25 := by omega
    have hall : ¬((normalizeUsername raw).data.all isWordChar = true) := by
      intro hc
      exact h ⟨h3, h25, hc⟩
    have hreg : matchesWordRegex (normalizeUsername raw) = false := by
      simp only [matchesWordRegex]
      simp [Bool.eq_false_iff.mpr hall]
    simp [handleUsernameRequest, hl, hreg]

/-- C9: `cacheSet` is an unconditional upsert — a get after a set returns
the new entry, a second set for the same key wins, and other keys are
untouched; and no request ever deletes an entry: whatever a request does
(including hitting, skipping, or overwriting a stale entry), the key
still has an entry afterwards. -/
theorem c9_result_cache_upsert :
    (∀ (m : UserCache) (k : String) (v : CacheEntry),
      cacheGet (cacheSet m k v) k = some v) ∧
    (∀ (m : UserCache) (k : String) (v v2 : CacheEntry),
      cacheGet (cacheSet (cacheSet m k v) k v2) k = some v2) ∧
    (∀ (m : UserCache) (k k2 : String) (v : CacheEntry), k2 ≠ k →
      cacheGet (cacheSet m k v) k2 = cacheGet m k2) ∧
    (∀ (raw : String) (st : ServerState) (tm : ReqTimes) (w : World),
      (cacheGet st.userCache (normalizeUsername raw)).isSome →
      (cacheGet (resultState (handleUsernameRequest raw st tm w)).userCache
        (normalizeUsername raw)).isSome) := by
  refine ⟨cacheGet_cacheSet_self,
    fun m k v v2 => cacheGet_cacheSet_self _ _ _,
    fun m k k2 v h => cacheGet_cacheSet_other m k k2 v h, ?_⟩
  intro raw st tm w h
  rcases userCache_after raw st tm w with he | ⟨e, he⟩
  · rw [he]
    exact h
  · rw [he, cacheGet_cacheSet_self]
    rfl

/-- C9 witness: concrete upsert, last-writer-wins and other-key
preservation, plus retention of a stale entry through a hanging
request. -/
theorem c9_result_cache_upsert_witness :
    cacheGet (cacheSet [] "upsertuser" ⟨bannedEmptyPayload "upsertuser", 0⟩) "upsertuser" =
      some ⟨bannedEmptyPayload "upsertuser", 0⟩ ∧
    cacheGet (cacheSet (cacheSet [] "upsertuser" ⟨bannedEmptyPayload "upsertuser", 0⟩)
        "upsertuser" ⟨bannedHttpPayload "upsertuser", 5⟩) "upsertuser" =
      some ⟨bannedHttpPayload "upsertuser", 5⟩ ∧
    cacheGet (cacheSet [("otheruser", ⟨bannedEmptyPayload "otheruser", 1⟩)]
        "upsertuser" ⟨bannedEmptyPayload "upsertuser", 0⟩) "otheruser" =
      cacheGet [("otheruser", ⟨bannedEmptyPayload "otheruser", 1⟩)] "otheruser" ∧
    (cacheGet (resultState (handleUsernameRequest "retaineduser"
        ⟨[("retaineduser", ⟨bannedEmptyPayload "retaineduser", 0⟩)], ⟨none, 0⟩⟩
        ⟨999999, 999999, 999999, 999999, 999999, 999999⟩
        ⟨.error (), .ok []⟩)).userCache (normalizeUsername "retaineduser")).isSome :=
  ⟨c9_result_cache_upsert.1 [] "upsertuser" ⟨bannedEmptyPayload "upsertuser", 0⟩,
   c9_result_cache_upsert.2.1 [] "upsertuser" ⟨bannedEmptyPayload "upsertuser", 0⟩
     ⟨bannedHttpPayload "upsertuser", 5⟩,
   c9_result_cache_upsert.2.2.1 [("otheruser", ⟨bannedEmptyPayload "otheruser", 1⟩)]
     "upsertuser" "otheruser" ⟨bannedEmptyPayload "upsertuser", 0⟩ (by decide),
   c9_result_cache_upsert.2.2.2 "retaineduser"
     ⟨[("retaineduser", ⟨bannedEmptyPayload "retaineduser", 0⟩)], ⟨none, 0⟩⟩
     ⟨999999, 999999, 999999, 999999, 999999, 999999⟩
     ⟨.error (), .ok []⟩ (by decide)⟩

/-- C10: no request removes result-cache entries — the entry count is
nondecreasing per request and across any request sequence, present keys
stay present, and key uniqueness is preserved (so the length counts
distinct usernames); `GET /health` reports `cache_entries` as exactly
that count, with no timestamp filtering, so entries older than the TTL
are included. -/
theorem c10_cache_monotone_health :
    (∀ (raw : String) (st : ServerState) (tm : ReqTimes) (w : World),
      st.userCache.length ≤
        (resultState (handleUsernameRequest raw st tm w)).userCache.length) ∧
    (∀ (raw : String) (st : ServerState) (tm : ReqTimes) (w : World) (k : String),
      (cacheGet st.userCache k).isSome →
      (cacheGet (resultState (handleUsernameRequest raw st tm w)).userCache k).isSome) ∧
    (∀ (st : ServerState) (reqs : List Request),
      st.userCache.length ≤ (runRequests st reqs).userCache.length) ∧
    (∀ (raw : String) (st : ServerState) (tm : ReqTimes) (w : World),
      (st.userCache.map Prod.fst).Nodup →
      ((resultState (handleUsernameRequest raw st tm w)).userCache.map Prod.fst).Nodup) ∧
    (∀ st : ServerState, healthHandler st = ⟨"healthy", st.userCache.length⟩) := by
  have hlen : ∀ (raw : String) (st : ServerState) (tm : ReqTimes) (w : World),
      st.userCache.length ≤
        (resultState (handleUsernameRequest raw st tm w)).userCache.length := by
    intro raw st tm w
    rcases userCache_after raw st tm w with he | ⟨e, he⟩
    · rw [he]
    · rw [he]
      exact length_le_cacheSet _ _ _
  refine ⟨hlen, ?_, ?_, ?_, fun st => rfl⟩
  · intro raw st tm w k h
    rcases userCache_after raw st tm w with he | ⟨e, he⟩
    · rw [he]
      exact h
    · rw [he]
      exact isSome_cacheGet_cacheSet _ _ _ _ h
  · intro st reqs
    induction reqs generalizing st with
    | nil => simp [runRequests]
    | cons r rs ih =>
      simp only [runRequests]
      exact le_trans (hlen r.raw st r.tm r.w) (ih _)
  · intro raw st tm w h
    rcases userCache_after raw st tm w with he | ⟨e, he⟩
    · rw [he]
      exact h
    · rw [he]
      exact nodup_keys_cacheSet _ _ _ h

/-- C10 witness: concrete instances — a banned-classification request
grows the cache from zero to one entry, a stale entry's key survives a
hanging refresh, a two-request run is monotone, key uniqueness is kept,
and `/health` counts a TTL-expired entry. -/
theorem c10_cache_monotone_health_witness :
    (⟨[], ⟨some "tok", 50000⟩⟩ : ServerState).userCache.length ≤
      (resultState (handleUsernameRequest "countuser" ⟨[], ⟨some "tok", 50000⟩⟩
        ⟨1, 1, 1, 1, 1, 1⟩ ⟨.error (), .ok []⟩)).userCache.length ∧
    (cacheGet (resultState (handleUsernameRequest "countuser"
        ⟨[("countuser", ⟨bannedEmptyPayload "countuser", 0⟩)], ⟨none, 0⟩⟩
        ⟨888888, 888888, 888888, 888888, 888888, 888888⟩
        ⟨.error (), .ok []⟩)).userCache "countuser").isSome ∧
    (⟨[], ⟨none, 0⟩⟩ : ServerState).userCache.length ≤
      (runRequests ⟨[], ⟨none, 0⟩⟩
        [⟨"countuser", ⟨1, 1, 1, 1, 1, 1⟩, ⟨.error (), .ok []⟩⟩,
         ⟨"ab", ⟨2, 2, 2, 2, 2, 2⟩, ⟨.error (), .ok []⟩⟩]).userCache.length ∧
    ((resultState (handleUsernameRequest "countuser" ⟨[], ⟨some "tok", 50000⟩⟩
        ⟨1, 1, 1, 1, 1, 1⟩ ⟨.error (), .ok []⟩)).userCache.map Prod.fst).Nodup ∧
    healthHandler ⟨[("countuser", ⟨bannedEmptyPayload "countuser", 0⟩)], ⟨none, 0⟩⟩ =
      ⟨"healthy", 1⟩ :=
  ⟨c10_cache_monotone_health.1 "countuser" ⟨[], ⟨some "tok", 50000⟩⟩
      ⟨1, 1, 1, 1, 1, 1⟩ ⟨.error (), .ok []⟩,
   c10_cache_monotone_health.2.1 "countuser"
      ⟨[("countuser", ⟨bannedEmptyPayload "countuser", 0⟩)], ⟨none, 0⟩⟩
      ⟨888888, 888888, 888888, 888888, 888888, 888888⟩
      ⟨.error (), .ok []⟩ "countuser" (by decide),
   c10_cache_monotone_health.2.2.1 ⟨[], ⟨none, 0⟩⟩
      [⟨"countuser", ⟨1, 1, 1, 1, 1, 1⟩, ⟨.error (), .ok []⟩⟩,
       ⟨"ab", ⟨2, 2, 2, 2, 2, 2⟩, ⟨.error (), .ok []⟩⟩],
   c10_cache_monotone_health.2.2.2.1 "countuser" ⟨[], ⟨some "tok", 50000⟩⟩
      ⟨1, 1, 1, 1, 1, 1⟩ ⟨.error (), .ok []⟩ (by decide),
   c10_cache_monotone_health.2.2.2.2
      ⟨[("countuser", ⟨bannedEmptyPayload "countuser", 0⟩)], ⟨none, 0⟩⟩⟩

/-- C5 witness: the two-character username "ab" is rejected with the
length payload, leaving the initial state untouched. -/
theorem c5_invalid_format_rejected_witness :
    (¬ specValidFormat (normalizeUsername "ab")) ∧
    (handleUsernameRequest "ab" initialState ⟨0, 0, 0, 0, 0, 0⟩ ⟨.error (), .ok []⟩ =
      .done (.json (invalidLengthPayload (normalizeUsername "ab"))) initialState 0 0 ∨
    handleUsernameRequest "ab" initialState ⟨0, 0, 0, 0, 0, 0⟩ ⟨.error (), .ok []⟩ =
      .done (.json (invalidCharsPayload (normalizeUsername "ab"))) initialState 0 0) :=
  ⟨by decide, c5_invalid_format_rejected "ab" initialState ⟨0, 0, 0, 0, 0, 0⟩
    ⟨.error (), .ok []⟩ (by decide)⟩
